import Mathlib

/-!
Verification development for the chart-generator script `bench_img.py`.

The script synthesizes two numeric series over a fixed step domain and
renders them as an annotated chart.  We embed the data synthesis over `ℚ`
(the script's float arithmetic is modelled by exact rationals), the numpy
global random generator as an abstract deterministic sample stream indexed
by seed and draw position, and the rendering calls as a list of drawing
commands.
-/

namespace BenchImg

/-- Embeds `steps = np.arange(0, 51)`: the integers 0,…,50 in order. -/
def steps : List ℕ := List.range 51

/-- Embeds `decay_rate = 0.96` as the exact rational 96/100. -/
def decay_rate : ℚ := 96 / 100

/-- The noise-free decay term `100 * decay_rate ** s` at step `s`. -/
def decay_term (s : ℕ) : ℚ := 100 * decay_rate ^ s

/-- Embeds `np.clip(x, lo, hi)`, which numpy documents as
`minimum(hi, maximum(lo, x))`. -/
def np_clip (x lo hi : ℚ) : ℚ := min hi (max lo x)

/-- State of numpy's global pseudo-random generator: the seed it was last
seeded with and the number of samples drawn since seeding. -/
structure RngState where
  seed : ℕ
  pos : ℕ
deriving DecidableEq

/-- Embeds `np.random.seed(n)`: resets the global generator state,
discarding whatever state it had before. -/
def np_random_seed (n : ℕ) (_st : RngState) : RngState := ⟨n, 0⟩

/-- Embeds `np.random.normal(0, 2.5, size)` on the global generator.  The
actual normal samples are abstracted by a deterministic stream
`stream seed i` giving the i-th sample drawn after seeding with `seed`;
drawing `size` samples returns them in order and advances the position. -/
def np_random_normal (stream : ℕ → ℕ → ℚ) (size : ℕ) (st : RngState) :
    List ℚ × RngState :=
  ((List.range size).map fun i => stream st.seed (st.pos + i),
   ⟨st.seed, st.pos + size⟩)

/-- The generator state when the process starts (arbitrary: the script
seeds before drawing, so it is never read). -/
def initialRngState : RngState := ⟨0, 0⟩

/-- Embeds `drift_noise = np.random.normal(0, 2.5, size=len(steps))`
executed right after `np.random.seed(42)`. -/
def drift_noise (stream : ℕ → ℕ → ℚ) : List ℚ :=
  (np_random_normal stream steps.length (np_random_seed 42 initialRngState)).1

/-- Embeds `standard_agent_retention = 100 * (decay_rate ** steps) + drift_noise`
(elementwise over the arrays), before clipping. -/
def standard_agent_retention_pre (dn : List ℚ) : List ℚ :=
  List.zipWith (· + ·) (steps.map decay_term) dn

/-- Embeds `standard_agent_retention = np.clip(standard_agent_retention, 0, 100)`:
Series A after clipping each element into [0, 100]. -/
def standard_agent_retention (dn : List ℚ) : List ℚ :=
  (standard_agent_retention_pre dn).map (fun x => np_clip x 0 100)

/-- Embeds `seu_claude_retention = np.full(len(steps), 100.0)`: Series B. -/
def seu_claude_retention : List ℚ := List.replicate steps.length 100

/-- Embeds `crash_indices = [10, 22, 35, 42]`. -/
def crash_indices : List ℕ := [10, 22, 35, 42]

/-- The synthesis step of the script as a whole: seed the generator with 42,
draw one noise sample per step, and compute clipped Series A.  Returns the
series together with the generator state it leaves behind. -/
def synthesize (stream : ℕ → ℕ → ℚ) (st : RngState) : List ℚ × RngState :=
  let st1 := np_random_seed 42 st
  let (dn, st2) := np_random_normal stream steps.length st1
  (standard_agent_retention dn, st2)

/-- Clamping as the specification words it: values below `lo` become `lo`,
values above `hi` become `hi`, everything else is unchanged. -/
def clamp_spec (x lo hi : ℚ) : ℚ := if x < lo then lo else if hi < x then hi else x

/-- The text attached to the crash-index-10 annotation. -/
def crash_label : String := "Crash & Recover\n(No State Loss)"

/-- The label written next to the threshold line. -/
def threshold_label : String := "Hallucination Threshold (Unreliable Zone)"

/-- The fixed output file name passed to `plt.savefig`. -/
def output_filename : String := "stochastic_drift_benchmark.png"

/-- Drawing commands issued against the matplotlib axes/figure, keeping the
arguments the claims are about (positions, sizes, file name, dpi). -/
inductive RenderCmd where
  | subplots (w h : ℚ)
  | plotLine (xs : List ℕ) (ys : List ℚ)
  | fillBetween (xs : List ℕ) (ys : List ℚ) (base : ℚ)
  | scatter (x : ℕ) (y : ℚ)
  | annotate (label : String) (x : ℕ) (y : ℚ)
  | axhline (y : ℚ)
  | text (x y : ℚ) (label : String)
  | savefig (name : String) (dpi : ℕ)
deriving DecidableEq

/-- Embeds the `for crash in crash_indices` loop: a marker at `(crash, 100)`
for every crash index, and additionally the annotation when `crash == 10`. -/
def crash_marker_cmds : List RenderCmd :=
  crash_indices.flatMap fun crash =>
    RenderCmd.scatter crash 100 ::
      (if crash = 10 then [RenderCmd.annotate crash_label crash 100] else [])

/-- Embeds the plotting section of the script (lines 24-59) as the ordered
list of drawing commands it issues, given the drift-noise array. -/
def render_cmds (dn : List ℚ) : List RenderCmd :=
  [RenderCmd.subplots 12 7,
   RenderCmd.plotLine steps (standard_agent_retention dn),
   RenderCmd.fillBetween steps (standard_agent_retention dn) 0,
   RenderCmd.plotLine steps seu_claude_retention]
  ++ crash_marker_cmds
  ++ [RenderCmd.axhline 60,
      RenderCmd.text 1 62 threshold_label,
      RenderCmd.savefig output_filename 300]

/-- Recognizes a scatter command. -/
def isScatter : RenderCmd → Bool
  | RenderCmd.scatter _ _ => true
  | _ => false

/-- Recognizes an annotate command. -/
def isAnnotate : RenderCmd → Bool
  | RenderCmd.annotate _ _ _ => true
  | _ => false

/-- Recognizes a savefig command. -/
def isSavefig : RenderCmd → Bool
  | RenderCmd.savefig _ _ => true
  | _ => false

/-- Recognizes a subplots command. -/
def isSubplots : RenderCmd → Bool
  | RenderCmd.subplots _ _ => true
  | _ => false

/-- Helper: `np.clip` into [0,100] agrees with the specification's clamp. -/
theorem np_clip_eq_clamp_spec (x : ℚ) : np_clip x 0 100 = clamp_spec x 0 100 := by
  unfold np_clip clamp_spec
  rcases lt_or_le x 0 with h0 | h0
  · rw [if_pos h0, max_eq_left h0.le, min_eq_right]
    norm_num
  · rw [if_neg (not_lt.mpr h0), max_eq_right h0]
    rcases lt_or_le 100 x with h1 | h1
    · rw [if_pos h1, min_eq_left h1.le]
    · rw [if_neg (not_lt.mpr h1), min_eq_right h1]

/-- Helper: the elementwise form of clipped Series A built from a noise
function over the step range. -/
theorem standard_agent_retention_map (noise : ℕ → ℚ) :
    standard_agent_retention ((List.range 51).map noise)
      = (List.range 51).map fun s => np_clip (decay_term s + noise s) 0 100 := by
  unfold standard_agent_retention standard_agent_retention_pre steps
  rw [List.zipWith_map, List.zipWith_same, List.map_map]
  rfl

/-- Helper: the drift-noise array is the stream at seed 42 from position 0. -/
theorem drift_noise_eq (stream : ℕ → ℕ → ℚ) :
    drift_noise stream = (List.range 51).map fun i => stream 42 i := by
  unfold drift_noise np_random_normal np_random_seed steps
  simp

/-- Claim C1: for every step s in 0..50, Series A at index s equals
`clamp(100 * 0.96^s + noise[s], 0, 100)`, where `noise[s]` is the s-th
sample drawn from the generator after seeding with 42, and clamp sends
values below 0 to 0 and values above 100 to 100. -/
theorem C1_seriesA_formula (stream : ℕ → ℕ → ℚ) (s : Fin 51) :
    (standard_agent_retention (drift_noise stream))[(s : ℕ)]?
      = some (clamp_spec (100 * decay_rate ^ (s : ℕ) + stream 42 (s : ℕ)) 0 100) := by
  rw [drift_noise_eq, standard_agent_retention_map]
  rw [List.getElem?_map, List.getElem?_range s.isLt]
  simp [np_clip_eq_clamp_spec, decay_term]

/-- Claim C2: every element of clipped Series A lies in [0, 100], whatever
the drift-noise array is. -/
theorem C2_seriesA_bounds (dn : List ℚ) (x : ℚ)
    (hx : x ∈ standard_agent_retention dn) : 0 ≤ x ∧ x ≤ 100 := by
  unfold standard_agent_retention at hx
  rcases List.mem_map.mp hx with ⟨y, _, rfl⟩
  unfold np_clip
  constructor
  · exact le_min (by norm_num) (le_max_left 0 y)
  · exact min_le_left 100 _

/-- Witness for C2 at a concrete input: 100 is an element of Series A built
from a single zero noise sample, and the bounds hold for it. -/
theorem C2_seriesA_bounds_witness :
    (0 : ℚ) ≤ 100 ∧ (100 : ℚ) ≤ 100 :=
  C2_seriesA_bounds ((List.range 51).map fun _ => 0) 100 (by
    rw [standard_agent_retention_map]
    refine List.mem_map.mpr ⟨0, List.mem_range.mpr (by norm_num), ?_⟩
    simp only [np_clip, decay_term, pow_zero, mul_one, add_zero]
    rw [max_eq_right (by norm_num : (0 : ℚ) ≤ 100), min_self])

/-- Claim C3: Series B has value exactly 100.0 at every step in 0..50. -/
theorem C3_seriesB_constant (s : Fin 51) :
    seu_claude_retention[(s : ℕ)]? = some 100 := by
  unfold seu_claude_retention steps
  rw [List.getElem?_replicate]
  simp [s.isLt]

/-- Claim C4: the step domain is the ordered sequence 0,…,50 (51 points) and
is shared by both series and the noise array: all have length 51 and the
i-th step is i. -/
theorem C4_step_domain :
    steps.length = 51
      ∧ (∀ i : Fin 51, steps[(i : ℕ)]? = some (i : ℕ))
      ∧ seu_claude_retention.length = 51
      ∧ (∀ stream : ℕ → ℕ → ℚ, (drift_noise stream).length = 51)
      ∧ (∀ stream : ℕ → ℕ → ℚ,
          (standard_agent_retention (drift_noise stream)).length = 51) := by
  refine ⟨rfl, fun i => ?_, rfl, fun stream => ?_, fun stream => ?_⟩
  · exact List.getElem?_range i.isLt
  · rw [drift_noise_eq]
    simp
  · rw [drift_noise_eq, standard_agent_retention_map]
    simp

/-- Claim C5: executing the synthesis step (seed with 42, draw the noise,
build clipped Series A) twice within one process run yields identical
Series A arrays: the second execution, started from the generator state the
first one left behind, produces the same output. -/
theorem C5_determinism (stream : ℕ → ℕ → ℚ) (st : RngState) :
    (synthesize stream (synthesize stream st).2).1 = (synthesize stream st).1 := rfl

/-- Claim C6: the noise-free decay term `100 * 0.96^s` is strictly
decreasing in the step. -/
theorem C6_decay_strict_mono (s t : ℕ) (hst : s < t) :
    decay_term t < decay_term s := by
  unfold decay_term
  have h := pow_lt_pow_right_of_lt_one₀ (a := decay_rate)
    (by norm_num [decay_rate]) (by norm_num [decay_rate]) hst
  linarith

/-- Witness for C6 at concrete steps 0 < 1. -/
theorem C6_decay_strict_mono_witness : decay_term 1 < decay_term 0 :=
  C6_decay_strict_mono 0 1 (by decide)

/-- Claim C7: markers are drawn at (i, 100) exactly for i in {10, 22, 35, 42},
and of these exactly index 10 carries the text annotation. -/
theorem C7_crash_markers :
    crash_indices = [10, 22, 35, 42]
      ∧ crash_marker_cmds.filter isScatter
          = [RenderCmd.scatter 10 100, RenderCmd.scatter 22 100,
             RenderCmd.scatter 35 100, RenderCmd.scatter 42 100]
      ∧ crash_marker_cmds.filter isAnnotate
          = [RenderCmd.annotate crash_label 10 100] := by
  refine ⟨rfl, ?_, ?_⟩ <;> rfl

/-- Claim C8: the pre-noise decay value at step 0 is exactly 100, the
pre-noise decay value at step 50 is within 0.05 of 13.0, and Series A at
those steps is the decay value plus the corresponding noise sample, clamped
into [0, 100]. -/
theorem C8_endpoints (stream : ℕ → ℕ → ℚ) :
    decay_term 0 = 100
      ∧ |decay_term 50 - 13| ≤ 1 / 20
      ∧ (standard_agent_retention (drift_noise stream))[(0 : ℕ)]?
          = some (clamp_spec (decay_term 0 + stream 42 0) 0 100)
      ∧ (standard_agent_retention (drift_noise stream))[(50 : ℕ)]?
          = some (clamp_spec (decay_term 50 + stream 42 50) 0 100) := by
  refine ⟨by norm_num [decay_term], ?_, ?_, ?_⟩
  · rw [abs_le]
    constructor <;> norm_num [decay_term, decay_rate]
  · simpa [decay_term] using C1_seriesA_formula stream ⟨0, by norm_num⟩
  · simpa [decay_term] using C1_seriesA_formula stream ⟨50, by norm_num⟩

/-- Claim C9: the render step issues exactly one savefig command, with the
fixed file name and 300 dpi, and exactly one canvas creation, sized 12×7. -/
theorem C9_output (dn : List ℚ) :
    (render_cmds dn).filter isSavefig = [RenderCmd.savefig output_filename 300]
      ∧ output_filename = "stochastic_drift_benchmark.png"
      ∧ (render_cmds dn).filter isSubplots = [RenderCmd.subplots 12 7] := by
  refine ⟨?_, rfl, ?_⟩ <;> rfl

/-- Claim C10: the clamp into [0, 100] is the identity on in-range inputs
and is idempotent. -/
theorem C10_clip_idem (x : ℚ) :
    (0 ≤ x → x ≤ 100 → np_clip x 0 100 = x)
      ∧ np_clip (np_clip x 0 100) 0 100 = np_clip x 0 100 := by
  constructor
  · intro h0 h1
    unfold np_clip
    rw [max_eq_right h0, min_eq_right h1]
  · unfold np_clip
    rw [max_eq_right (le_min (by norm_num) (le_max_left 0 x)),
      min_eq_right (min_le_left 100 _)]

/-- Witness for C10 at the concrete in-range input 50. -/
theorem C10_clip_idem_witness :
    (0 : ℚ) ≤ 50 ∧ (50 : ℚ) ≤ 100 ∧ np_clip 50 0 100 = 50 :=
  ⟨by norm_num, by norm_num, (C10_clip_idem 50).1 (by norm_num) (by norm_num)⟩

end BenchImg
